import Mathlib

/-!
Formal model of the dbrx patch module
(`src/lmdeploy/pytorch/models/dbrx.py`): tensor-parallel weight sharding,
expert-weight repacking, the attention forward pass, the mixture-of-experts
forward pass, the model forward driver, and the distribution-output hooks.

Tensors are shallowly embedded as dimension tuples plus total entry
functions; entries are `Int` payloads because the operations under study
(sharding, repacking, splitting, concatenation, transposition) only move
entries and never combine them arithmetically.  External kernels
(`fused_moe`, `fused_rotary_emb`, `fill_kv_cache`, `paged_attention_fwd`)
and `torch.distributed.all_reduce` are not part of the repository fragment;
they are modelled as opaque function parameters, with their shape contracts
taken from the specification where needed.
-/

/-- A 2-D tensor: dimension sizes plus a total entry function.  Out-of-range
entries are junk and never constrained. -/
structure T2 where
  d0 : Nat
  d1 : Nat
  data : Nat → Nat → Int

/-- A 3-D tensor. -/
structure T3 where
  d0 : Nat
  d1 : Nat
  d2 : Nat
  data : Nat → Nat → Nat → Int

/-- Extensional equality of 2-D tensors on their valid index ranges. -/
abbrev T2Eq (a b : T2) : Prop :=
  a.d0 = b.d0 ∧ a.d1 = b.d1 ∧ ∀ i < a.d0, ∀ j < a.d1, a.data i j = b.data i j

/-- Extensional equality of 3-D tensors on their valid index ranges. -/
abbrev T3Eq (a b : T3) : Prop :=
  a.d0 = b.d0 ∧ a.d1 = b.d1 ∧ a.d2 = b.d2 ∧
    ∀ e < a.d0, ∀ i < a.d1, ∀ j < a.d2, a.data e i j = b.data e i j

/-- Width of the full chunks produced by `torch.chunk(chunks)` along an axis
of size `n`: `ceil(n / chunks)`. -/
def chunkWidth (n chunks : Nat) : Nat := (n + chunks - 1) / chunks

/-- The slicing performed by `__partition` inside
`PatchedDbrxExpertGLU._load_weights` on one stacked expert tensor
(`w1`, `v1` or `w2`, stored as `(moe_num_experts * ffn, hidden)`):

    param = param.unflatten(0, (self.moe_num_experts, -1))
    param = param.chunk(world_size, 1)[rank]
    param = torch.nn.Parameter(param.flatten(0, 1))

The `.to(device)` move and the no-op dtype conversion are value-preserving
and elided.  The chunk is taken along dim 1 (the per-expert ffn axis) and
this rank's chunk has width `min cw (F - rank * cw)` where
`cw = chunkWidth F world_size`. -/
def partitionParam (moe_num_experts world_size rank : Nat) (param : T2) : T2 :=
  let F := param.d0 / moe_num_experts
  let cw := chunkWidth F world_size
  let start := rank * cw
  let w := min cw (F - start)
  { d0 := moe_num_experts * w
    d1 := param.d1
    data := fun i j => param.data ((i / w) * F + (start + i % w)) j }

/-- Stacking of the complete per-expert blocks (each of `F` rows) of the
stacked tensor `p` for the experts listed in `sel`, in list order.  This is
the tensor a rank would hold if it were given exactly the experts in `sel`
under expert-axis sharding. -/
def stackBlocks (F : Nat) (p : T2) (sel : List Nat) : T2 :=
  { d0 := sel.length * F
    d1 := p.d1
    data := fun i j => p.data (sel.getD (i / F) 0 * F + i % F) j }

/-- The experts owned by rank `r` under the expert-assignment `owner`, in
increasing expert order. -/
def ownedExperts {E ws : Nat} (owner : Fin E → Fin ws) (r : Nat) : List Nat :=
  ((List.finRange E).filter (fun e => (owner e : Nat) == r)).map (fun e => (e : Nat))

/-- Formalization of the claim that a stacked expert tensor `p` (shape
`(E * F, hidden)`) is sharded along the expert axis by `partitionParam`:
some assignment of experts to ranks exists such that every rank's local
tensor is exactly the stack of the complete blocks of its own experts
(so ranks hold disjoint expert subsets and no rank holds any part of
another rank's experts). -/
abbrev expertAxisSharded (E F ws : Nat) (p : T2) : Prop :=
  ∃ owner : Fin E → Fin ws, ∀ r < ws,
    T2Eq (partitionParam E ws r p) (stackBlocks F p (ownedExperts owner r))

/-- Concrete stacked tensor used to test `partitionParam`: 2 experts, 2 rows
(ffn features) per expert, 1 column; entry value = global row index. -/
def pC1 : T2 := ⟨4, 1, fun i _ => (i : Int)⟩

/-- The `gate_up_weights` buffer produced by
`PatchedDbrxExpertGLU._update_model_fn`:

    ffn_hidden_size = self.w1.size(0) // self.moe_num_experts
    gate_up_weights = self.w1.new_empty(self.moe_num_experts,
                                        ffn_hidden_size * 2, self.w1.size(1))
    gate_up_weights[:, :ffn_hidden_size].copy_(
        self.w1.unflatten(0, (self.moe_num_experts, -1)))
    gate_up_weights[:, ffn_hidden_size:].copy_(
        self.v1.unflatten(0, (self.moe_num_experts, -1))) -/
def gateUpWeights (moe_num_experts : Nat) (w1 v1 : T2) : T3 :=
  let ffn := w1.d0 / moe_num_experts
  ⟨moe_num_experts, ffn * 2, w1.d1, fun e i j =>
    if i < ffn then w1.data (e * ffn + i) j else v1.data (e * ffn + (i - ffn)) j⟩

/-- The `down_weights` buffer produced by
`PatchedDbrxExpertGLU._update_model_fn`:

    down_weights = self.w2.data.unflatten(
        0, (self.moe_num_experts, -1)).transpose(1, 2).contiguous() -/
def downWeights (moe_num_experts : Nat) (w2 : T2) : T3 :=
  let ffn := w2.d0 / moe_num_experts
  ⟨moe_num_experts, w2.d1, ffn, fun e i j => w2.data (e * ffn + j) i⟩

/-- Per-expert view of a stacked tensor: `t.unflatten(0, (E, -1))`, giving
shape `(E, t.d0 / E, t.d1)`. -/
def unflatten0 (E : Nat) (t : T2) : T3 :=
  ⟨E, t.d0 / E, t.d1, fun e i j => t.data (e * (t.d0 / E) + i) j⟩

/-- Reference tensor built from the spec's words: for each expert `e`,
`gate_up[e]` is the concatenation of `gate[e]` and `value[e]` along the
output-feature axis. -/
def refConcatGateUp (gate value : T3) : T3 :=
  ⟨gate.d0, gate.d1 + value.d1, gate.d2, fun e i j =>
    if i < gate.d1 then gate.data e i j else value.data e (i - gate.d1) j⟩

/-- Reference tensor built from the spec's words: for each expert `e`,
`down_t[e]` is `down[e]` with its input and output axes transposed. -/
def refTransposeDown (down : T3) : T3 :=
  ⟨down.d0, down.d2, down.d1, fun e i j => down.data e j i⟩

/-- Attribute state of a `DbrxExpertGLU` module as the patch sees it: the
load-representation parameters `w1`, `v1`, `w2` and the
compute-representation buffers `gate_up_weights`, `down_weights`.  `none`
models an attribute that is not present on the module (reading it raises
`AttributeError`). -/
structure DbrxExpertGLU where
  moe_num_experts : Nat
  w1 : Option T2
  v1 : Option T2
  w2 : Option T2
  gate_up_weights : Option T3
  down_weights : Option T3

namespace PatchedDbrxExpertGLU

/-- `PatchedDbrxExpertGLU._update_model_fn`: repack `w1`/`v1`/`w2` into
`gate_up_weights`/`down_weights`, then `delattr` the three load-time
parameters and register the two buffers.  The very first statement reads
`self.w1`, so on a module without `w1` (in particular an already-repacked
one) the call raises `AttributeError` before mutating anything; that
failure is modelled as `none`.  `torch.cuda.empty_cache()` is a pure
allocator hint and is elided. -/
def _update_model_fn (m : DbrxExpertGLU) : Option DbrxExpertGLU :=
  match m.w1, m.v1, m.w2 with
  | some w1, some v1, some w2 =>
    some { m with
      w1 := none, v1 := none, w2 := none,
      gate_up_weights := some (gateUpWeights m.moe_num_experts w1 v1),
      down_weights := some (downWeights m.moe_num_experts w2) }
  | _, _, _ => none

end PatchedDbrxExpertGLU

/-- Concrete fully-loaded expert-GLU module used as a test input: one
expert, one ffn row, one column. -/
def glu0 : DbrxExpertGLU :=
  ⟨1, some ⟨1, 1, fun _ _ => 3⟩, some ⟨1, 1, fun _ _ => 4⟩,
    some ⟨1, 1, fun _ _ => 5⟩, none, none⟩

/-- State of the `rotary_emb` submodule read and written by
`__rotary_emb_fn`: the configuration `(base, dim)` and the lazily
initialized `inv_freq` attribute (`none` models the Python `None`).
Entry values live in `Rat`; the Python float power `**` is not interpreted
and is passed in as an opaque function `fpow`. -/
structure DbrxRotaryEmbedding where
  base : Rat
  dim : Nat
  inv_freq : Option (List Rat)

/-- The inverse-frequency table computed by `__rotary_emb_fn` on first use:

    1.0 / (base ** (torch.arange(0, dim, 2).float() / dim))

`torch.arange(0, dim, 2)` has the `ceil(dim / 2)` entries
`0, 2, ..., 2 * (ceil(dim / 2) - 1)`, so entry `k` of the table is
`1 / fpow base (2 * k / dim)`. -/
def computeInvFreq (fpow : Rat → Rat → Rat) (base : Rat) (dim : Nat) : List Rat :=
  (List.range ((dim + 1) / 2)).map fun k =>
    1 / fpow base (((2 * k : Nat) : Rat) / (dim : Rat))

/-- `__rotary_emb_fn` inside
`PatchedDbrxAttention._contiguous_batching_forward_impl`: if
`rotary_emb.inv_freq` is `None` it is computed from `(base, dim)` and
stored on the module; the cached table is then handed to the external
`fused_rotary_emb` kernel together with Q, K, the per-token positions and
`scaling_factor = 1.0`, and V is returned untouched.  `fused` models the
external kernel (modelled from the spec contract
`(query, key, position_ids, inv_freq, scaling_factor, out_q, out_k) ->
(query', key')`; the kernel writes in place into `out_q = query[None]` and
`out_k = key[None]`, and the `[None]`/`[0]` wrapping is a pure
reshape, so the kernel is modelled as a function from Q/K to new Q/K). -/
def rotaryEmbFn {T P : Type} (fpow : Rat → Rat → Rat)
    (fused : T → T → P → List Rat → Rat → T × T)
    (rotary_emb : DbrxRotaryEmbedding)
    (query_states key_states value_states : T) (position_ids_1d : P) :
    DbrxRotaryEmbedding × T × T × T :=
  let scaling_factor : Rat := 1
  let rotary_emb :=
    if rotary_emb.inv_freq.isNone then
      { rotary_emb with
        inv_freq := some (computeInvFreq fpow rotary_emb.base rotary_emb.dim) }
    else rotary_emb
  let inv_freq := rotary_emb.inv_freq.getD []
  let qk := fused query_states key_states position_ids_1d inv_freq scaling_factor
  (rotary_emb, qk.1, qk.2, value_states)

/-- Static attention configuration read from the module by
`_contiguous_batching_forward_impl`: the global (unsharded) head counts,
the per-head width, the model hidden size (output features of `out_proj`)
and the optional activation clipping bound. -/
structure AttnConfig where
  num_heads : Nat
  num_key_value_heads : Nat
  head_dim : Nat
  hidden_size : Nat
  clip_qkv : Option Rat

/-- `x.clamp(min=-c, max=c)` on one entry. -/
def clampVal (c x : Rat) : Rat := min (max x (-c)) c

/-- The conditional clamp in `__qkv_proj`: applied only when
`self.clip_qkv is not None`. -/
def clampOpt (clip : Option Rat) (x : Rat) : Rat :=
  match clip with
  | none => x
  | some c => clampVal c x

/-- Value-level model of `__qkv_proj` inside
`PatchedDbrxAttention._contiguous_batching_forward_impl`:

    qkv_states = self.Wqkv(hidden_states)
    if self.clip_qkv is not None:
        qkv_states = qkv_states.clamp(min=-self.clip_qkv, max=self.clip_qkv)
    query_states, key_states, value_states = qkv_states.split(
        [num_heads * head_dim, num_kv_heads * head_dim,
         num_kv_heads * head_dim], dim=-1)
    query_states = query_states.view(-1, num_heads, head_dim)
    ...

with `num_heads = self.num_heads // world_size` and
`num_kv_heads = self.num_key_value_heads // world_size`.  The external
`Wqkv` linear layer is an opaque function from the hidden-state matrix to
the projected matrix (token index, feature index).  The `split` at the
given section widths followed by `view(-1, heads, head_dim)` becomes index
arithmetic on the feature axis; the result triple gives Q, K, V as
`(token, head, feature-in-head)` functions. -/
def __qkv_proj (cfg : AttnConfig) (world_size : Nat)
    (Wqkv : (Nat → Nat → Rat) → Nat → Nat → Rat)
    (hidden_states : Nat → Nat → Rat) :
    (Nat → Nat → Nat → Rat) × (Nat → Nat → Nat → Rat) × (Nat → Nat → Nat → Rat) :=
  let num_heads := cfg.num_heads / world_size
  let num_kv_heads := cfg.num_key_value_heads / world_size
  let head_dim := cfg.head_dim
  let qkv_states := Wqkv hidden_states
  let qkv_states := fun t o => clampOpt cfg.clip_qkv (qkv_states t o)
  let query_states := fun t a b => qkv_states t (a * head_dim + b)
  let key_states := fun t a b =>
    qkv_states t (num_heads * head_dim + (a * head_dim + b))
  let value_states := fun t a b =>
    qkv_states t (num_heads * head_dim + num_kv_heads * head_dim + (a * head_dim + b))
  (query_states, key_states, value_states)

/-- A tensor at the buffer level: a storage-region identity (views and
reshapes of the same region keep the id; `torch.split` yields disjoint
regions with distinct ids) and a shape. -/
structure BufTensor where
  id : Nat
  shape : List Nat
  deriving DecidableEq

/-- The fields of the batch context read by
`_contiguous_batching_forward_impl`, each an opaque handle. -/
structure BatchContext where
  q_start_loc : Nat
  q_seq_length : Nat
  kv_seq_length : Nat
  block_offsets : Nat
  max_q_seq_length : Nat
  position_ids_1d : Nat

/-- One observable action of the attention forward pass, recording the
buffer and context handles passed to each external operation, in argument
order of the source call. -/
inductive AttnEvent where
  | qkvProj (src dst : Nat)
  | rotaryEv (q k posIds : Nat)
  | fillKVCache (key value kcache vcache qStartLoc qSeqLen kvSeqLen maxQSeqLen
      blockOffsets : Nat)
  | pagedAttnFwd (q kcache vcache out blockOffsets qStartLoc qSeqLen kvSeqLen
      maxSeqLen : Nat)
  | outProjEv (src : Nat) (srcShape : List Nat) (dst : Nat)
  deriving DecidableEq

/-- Product of a shape, as used by `view(-1, ...)` / `reshape(..., -1)`
inference. -/
def listProd (l : List Nat) : Nat := l.foldr (fun a b => a * b) 1

/-- Buffer-and-effect-level model of
`PatchedDbrxAttention._contiguous_batching_forward_impl`.  It returns the
source function's result triple `(attn_output, None, past_key_value)`
together with the trace of external operations it performs:

1. `__qkv_proj`: `self.Wqkv` allocates one projection buffer (id `fresh`);
   the optional clamp and the `split`/`view` produce the Q/K/V views as
   three disjoint regions (ids `fresh`, `fresh + 1`, `fresh + 2`) of shape
   `(n, heads, head_dim)` where `n` is the token count (product of the
   leading dims of `hidden_states`).
2. `__rotary_emb_fn`: `fused_rotary_emb` writes in place into
   `out_q`/`out_k`, which alias the Q/K buffers.
3. `fill_kv_cache(key_states, value_states, past_key_value[0],
   past_key_value[1], q_start_loc, q_seq_length, kv_seq_length,
   max_q_seq_length, block_offsets)`.
4. `attn_output = query_states` followed by
   `paged_attention_fwd(query_states, past_key_value[0],
   past_key_value[1], attn_output, block_offsets, q_start_loc, q_seqlens,
   kv_seqlens, max_seqlen)`: the output buffer is the query buffer.
5. `attn_output.reshape(*hidden_states.shape[:-1], -1)` (inferred last dim
   = numel / product of leading dims) and `self.out_proj`, whose output is
   a fresh buffer (id `fresh + 3`) with the full `hidden_size` as its last
   dim (row-parallel linear). -/
def attnForwardImpl (cfg : AttnConfig) (context : BatchContext)
    (hidden_states : BufTensor) (past_key_value : BufTensor × BufTensor)
    (world_size fresh : Nat) :
    (BufTensor × Option Unit × (BufTensor × BufTensor)) × List AttnEvent :=
  let num_heads := cfg.num_heads / world_size
  let num_kv_heads := cfg.num_key_value_heads / world_size
  let head_dim := cfg.head_dim
  let lead := hidden_states.shape.dropLast
  let n := listProd lead
  let query_states : BufTensor := ⟨fresh, [n, num_heads, head_dim]⟩
  let key_states : BufTensor := ⟨fresh + 1, [n, num_kv_heads, head_dim]⟩
  let value_states : BufTensor := ⟨fresh + 2, [n, num_kv_heads, head_dim]⟩
  let ev1 : List AttnEvent := [.qkvProj hidden_states.id fresh]
  let ev2 := ev1 ++ [.rotaryEv query_states.id key_states.id context.position_ids_1d]
  let ev3 := ev2 ++ [.fillKVCache key_states.id value_states.id
      past_key_value.1.id past_key_value.2.id context.q_start_loc
      context.q_seq_length context.kv_seq_length context.max_q_seq_length
      context.block_offsets]
  let attn_output := query_states
  let ev4 := ev3 ++ [.pagedAttnFwd query_states.id past_key_value.1.id
      past_key_value.2.id attn_output.id context.block_offsets
      context.q_start_loc context.q_seq_length context.kv_seq_length
      context.max_q_seq_length]
  let attn_output : BufTensor := ⟨attn_output.id, lead ++ [listProd attn_output.shape / n]⟩
  let ev5 := ev4 ++ [.outProjEv attn_output.id attn_output.shape (fresh + 3)]
  let attn_output : BufTensor := ⟨fresh + 3, lead ++ [cfg.hidden_size]⟩
  ((attn_output, none, past_key_value), ev5)

namespace PatchedDbrxAttention

/-- `PatchedDbrxAttention.forward`: reads the ambient distributed state
(`dist.is_initialized()`, `dist.get_world_size()`, modelled as explicit
arguments) to pick `world_size`, then delegates to
`_contiguous_batching_forward_impl` with only `hidden_states`,
`past_key_value` and `world_size`; the `position_ids`, `attention_mask`,
`output_attentions`, `use_cache` and `cache_position` arguments are
accepted and dropped. -/
def forward {π μ γ : Type} (dist_initialized : Bool) (dist_world_size : Nat)
    (cfg : AttnConfig) (context : BatchContext) (fresh : Nat)
    (hidden_states : BufTensor)
    (position_ids : Option π) (attention_mask : Option μ)
    (past_key_value : BufTensor × BufTensor)
    (output_attentions : Bool) (use_cache : Bool) (cache_position : Option γ) :
    (BufTensor × Option Unit × (BufTensor × BufTensor)) × List AttnEvent :=
  let world_size := if dist_initialized then dist_world_size else 1
  attnForwardImpl cfg context hidden_states past_key_value world_size fresh

/-- `PatchedDbrxAttention._distribute_output_fn`: `dist.all_reduce(outputs[0])`
then `return outputs`.  The tuple is modelled as a list; on an empty tuple
the subscript `outputs[0]` raises, modelled as `none`. -/
def _distribute_output_fn {α : Type} (all_reduce : α → α) (outputs : List α) :
    Option (List α) :=
  match outputs with
  | [] => none
  | x :: rest => some (all_reduce x :: rest)

end PatchedDbrxAttention

namespace PatchedDbrxExperts

/-- `PatchedDbrxExperts._distribute_output_fn`: `dist.all_reduce(outputs)`
then `return outputs` — the whole output tensor is reduced. -/
def _distribute_output_fn {α : Type} (all_reduce : α → α) (outputs : α) : α :=
  all_reduce outputs

end PatchedDbrxExperts

/-- The repacked weight buffers held by `self.mlp` and read by
`PatchedDbrxExperts.forward`. -/
structure DbrxExpertsMLP where
  gate_up_weights : T3
  down_weights : T3

/-- Record of the single `fused_moe` invocation made by
`PatchedDbrxExperts.forward`: the token-matrix dimensions passed, the
weight tensors passed, the `topk` argument and the `renormalize` flag. -/
structure MoeCallRec where
  tokens_d0 : Nat
  tokens_d1 : Nat
  gate_up : T3
  down : T3
  topk : Nat
  renormalize : Bool

namespace PatchedDbrxExperts

/-- `PatchedDbrxExperts.forward`:

    q_len = x.size(1)
    x = x.flatten(0, 1)
    out_states = fused_moe(x, self.mlp.gate_up_weights,
                           self.mlp.down_weights, top_weights, top_experts,
                           topk=top_weights.size(1), renormalize=False)
    out_states = out_states.unflatten(0, (-1, q_len))
    return out_states

The external `fused_moe` kernel is an opaque function parameter (modelled
from the spec contract `(tokens, gate_up_weights, down_weights,
top_weights, top_experts, topk, renormalize) -> tokens'`).  The `weights`
argument of the source function is accepted and never used, exactly as in
the source.  Alongside the output, the model returns the record of the
kernel call it made. -/
def forward (fused_moe : T2 → T3 → T3 → T2 → T2 → Nat → Bool → T2)
    (mlp : DbrxExpertsMLP) (x : T3) (weights : T2)
    (top_weights : T2) (top_experts : T2) : T3 × MoeCallRec :=
  let q_len := x.d1
  let xf : T2 := ⟨x.d0 * x.d1, x.d2, fun i j => x.data (i / q_len) (i % q_len) j⟩
  let out_states := fused_moe xf mlp.gate_up_weights mlp.down_weights
      top_weights top_experts top_weights.d1 false
  let out : T3 := ⟨out_states.d0 / q_len, q_len, out_states.d1,
    fun a b j => out_states.data (a * q_len + b) j⟩
  (out, ⟨xf.d0, xf.d1, mlp.gate_up_weights, mlp.down_weights, top_weights.d1, false⟩)

end PatchedDbrxExperts

/-- The argument record a transformer block receives from the model
driver, mirroring the keyword arguments of the `block(...)` call in
`_continuous_batching_forward`.  The mask and cache-position slots hold
`Option Unit` because the driver only ever passes `None` there (no mask
object type even exists in the pass). -/
structure BlockArgs (α κ π : Type) where
  hidden_states : α
  attention_mask : Option Unit
  position_ids : Option π
  past_key_value : κ
  output_attentions : Bool
  output_router_logits : Bool
  use_cache : Bool
  cache_position : Option Unit

/-- One recorded block invocation: the block index, the arguments passed,
and the hidden states the block returned (`block_outputs[0]`). -/
structure BlockCallRec (α κ π : Type) where
  idx : Nat
  args : BlockArgs α κ π
  output : α

/-- The result record returned by the driver, mirroring
`MoeModelOutputWithPast(last_hidden_state=..., past_key_values=...,
hidden_states=None, attentions=None)`. -/
structure MoeModelOutputWithPast (α β : Type) where
  last_hidden_state : α
  past_key_values : β
  hidden_states : Option Unit
  attentions : Option Unit

/-- The `for idx, block in enumerate(self.blocks)` loop of
`_continuous_batching_forward`: each block is an opaque function from its
argument record to its returned hidden states; the loop threads
`hidden_states = block_outputs[0]` and records every call. -/
def runBlocks {α κ π : Type} (blocks : List (BlockArgs α κ π → α)) (idx : Nat)
    (hidden_states : α) (attention_mask : Option Unit) (position_ids : Option π)
    (past_key_values : Nat → κ)
    (output_attentions output_router_logits use_cache : Bool)
    (cache_position : Option Unit) : α × List (BlockCallRec α κ π) :=
  match blocks with
  | [] => (hidden_states, [])
  | block :: rest =>
    let args : BlockArgs α κ π :=
      ⟨hidden_states, attention_mask, position_ids, past_key_values idx,
        output_attentions, output_router_logits, use_cache, cache_position⟩
    let out := block args
    let r := runBlocks rest (idx + 1) out attention_mask position_ids
        past_key_values output_attentions output_router_logits use_cache
        cache_position
    (r.1, ⟨idx, args, out⟩ :: r.2)

namespace PatchedDbrxModel

/-- `PatchedDbrxModel._continuous_batching_forward`: embedding lookup
through `self.wte`, then every block in order (with
`attention_mask = None` and `cache_position = None` — no mask is ever
constructed in the pass — and `output_attentions = False`,
`output_router_logits = False`, `use_cache = True`, each block getting
`past_key_values[idx]`), then `self.norm_f`, returning a
`MoeModelOutputWithPast` holding the normalized hidden states and the
incoming `past_key_values` object.  `wte`, `norm_f` and the blocks are
opaque; `past_key_values` is an opaque indexable collection, modelled as a
function from the block index.  The call trace is returned alongside. -/
def _continuous_batching_forward {α κ π ι : Type} (wte : ι → α) (norm_f : α → α)
    (blocks : List (BlockArgs α κ π → α)) (input_ids : ι)
    (position_ids : Option π) (past_key_values : Nat → κ) :
    MoeModelOutputWithPast α (Nat → κ) × List (BlockCallRec α κ π) :=
  let output_attentions := false
  let use_cache := true
  let output_router_logits := false
  let inputs_embeds := wte input_ids
  -- Attention mask is not necessary in continuous batching
  let attention_mask : Option Unit := none
  let cache_position : Option Unit := none
  let hidden_states := inputs_embeds
  let r := runBlocks blocks 0 hidden_states attention_mask position_ids
      past_key_values output_attentions output_router_logits use_cache
      cache_position
  let hidden_states := norm_f r.1
  (⟨hidden_states, past_key_values, none, none⟩, r.2)

/-- `PatchedDbrxModel.forward`: accepts the full HuggingFace signature and
delegates to `_continuous_batching_forward` with only `input_ids`,
`position_ids` and `past_key_values`; every other argument is dropped. -/
def forward {α κ π ι μ γ : Type} (wte : ι → α) (norm_f : α → α)
    (blocks : List (BlockArgs α κ π → α))
    (input_ids : ι) (attention_mask : Option μ) (position_ids : Option π)
    (past_key_values : Nat → κ) (inputs_embeds : Option α)
    (use_cache : Option Bool) (output_attentions : Option Bool)
    (output_hidden_states : Option Bool) (output_router_logits : Option Bool)
    (return_dict : Option Bool) (cache_position : Option γ) :
    MoeModelOutputWithPast α (Nat → κ) × List (BlockCallRec α κ π) :=
  _continuous_batching_forward wte norm_f blocks input_ids position_ids
    past_key_values

end PatchedDbrxModel

theorem chunkWidth_of_dvd (F ws : Nat) (h0 : 0 < ws) (h : ws ∣ F) :
    chunkWidth F ws = F / ws := by
  obtain ⟨c, rfl⟩ := h
  unfold chunkWidth
  rw [Nat.mul_div_cancel_left c h0]
  have h1 : ws * c + ws - 1 = (ws - 1) + ws * c := by omega
  rw [h1, Nat.add_mul_div_left _ _ h0, Nat.div_eq_of_lt (by omega)]
  omega

/-- C1 counterexample: with 2 experts of 2 ffn rows each and
`world_size = 2`, the slicing performed by `__partition` is not an
expert-axis sharding — there is no assignment of experts to ranks under
which each rank's local tensor is the stack of the complete weight blocks
of its own experts (rank 0 receives row 0 of expert 0 and row 0 of
expert 1 rather than both rows of a single expert). -/
theorem claim_C1_counterexample : ¬ expertAxisSharded 2 2 2 pC1 := by decide

/-- C1 (amended): when expert weights are loaded with `world_size = ws`,
each stacked tensor is sharded along the per-expert intermediate (ffn)
axis, not the expert axis: rank `r` receives, for **every** expert `e`,
the contiguous rows `[r * (F / ws), (r + 1) * (F / ws))` of that expert's
`F`-row block, distinct ranks receiving disjoint row ranges of each
expert. -/
theorem claim_C1_amended (E F ws rank : Nat) (p : T2)
    (hE : 0 < E) (hF : 0 < F) (hdvd : ws ∣ F) (hrank : rank < ws)
    (hrows : p.d0 = E * F) :
    (partitionParam E ws rank p).d0 = E * (F / ws) ∧
    (partitionParam E ws rank p).d1 = p.d1 ∧
    (∀ e < E, ∀ f < F / ws, ∀ j < p.d1,
      (partitionParam E ws rank p).data (e * (F / ws) + f) j
        = p.data (e * F + (rank * (F / ws) + f)) j) ∧
    (∀ r1 < ws, ∀ r2 < ws, ∀ f1 < F / ws, ∀ f2 < F / ws,
      r1 * (F / ws) + f1 = r2 * (F / ws) + f2 → r1 = r2 ∧ f1 = f2) := by
  have hws0 : 0 < ws := Nat.pos_of_ne_zero (by omega)
  have hq0 : 0 < F / ws := Nat.div_pos (Nat.le_of_dvd hF hdvd) hws0
  have hF' : p.d0 / E = F := by rw [hrows, Nat.mul_div_cancel_left F hE]
  have hcw : chunkWidth F ws = F / ws := chunkWidth_of_dvd F ws hws0 hdvd
  have hwsF : ws * (F / ws) = F := Nat.mul_div_cancel' hdvd
  have hmin : min (F / ws) (F - rank * (F / ws)) = F / ws := by
    apply Nat.min_eq_left
    have h1 : (rank + 1) * (F / ws) ≤ ws * (F / ws) :=
      Nat.mul_le_mul_right _ hrank
    have h2 : (rank + 1) * (F / ws) = rank * (F / ws) + F / ws := by ring
    rw [hwsF] at h1
    omega
  have hdiv : ∀ e f : Nat, f < F / ws → (e * (F / ws) + f) / (F / ws) = e := by
    intro e f hf
    rw [Nat.add_comm, Nat.add_mul_div_right _ _ hq0, Nat.div_eq_of_lt hf,
      Nat.zero_add]
  have hmod : ∀ e f : Nat, f < F / ws → (e * (F / ws) + f) % (F / ws) = f := by
    intro e f hf
    rw [Nat.add_comm, Nat.add_mul_mod_self_right, Nat.mod_eq_of_lt hf]
  refine ⟨?_, rfl, ?_, ?_⟩
  · simp only [partitionParam, hF', hcw, hmin]
  · intro e he f hf j hj
    simp only [partitionParam, hF', hcw, hmin]
    rw [hdiv e f hf, hmod e f hf]
  · intro r1 hr1 r2 hr2 f1 hf1 f2 hf2 heq
    have h1 : r1 = r2 := by
      have e1 := hdiv r1 f1 hf1
      have e2 := hdiv r2 f2 hf2
      rw [heq] at e1
      omega
    subst h1
    exact ⟨rfl, by omega⟩

/-- C1 witness: the amended statement instantiated at the concrete tensor
`pC1` (2 experts, 2 ffn rows, `world_size = 2`, rank 0). -/
theorem claim_C1_witness :
    (partitionParam 2 2 0 pC1).d0 = 2 * (2 / 2) ∧
    (partitionParam 2 2 0 pC1).d1 = pC1.d1 ∧
    (∀ e < 2, ∀ f < 2 / 2, ∀ j < pC1.d1,
      (partitionParam 2 2 0 pC1).data (e * (2 / 2) + f) j
        = pC1.data (e * 2 + (0 * (2 / 2) + f)) j) ∧
    (∀ r1 < 2, ∀ r2 < 2, ∀ f1 < 2 / 2, ∀ f2 < 2 / 2,
      r1 * (2 / 2) + f1 = r2 * (2 / 2) + f2 → r1 = r2 ∧ f1 = f2) :=
  claim_C1_amended 2 2 2 0 pC1 (by decide) (by decide) (by decide) (by decide)
    (by decide)

/-- C2: for load tensors of shape `(E * F, hidden)`, the `gate_up_weights`
tensor produced by `_update_model_fn` equals, expert by expert, the
reference concatenation of `gate[e] = w1.unflatten(0,(E,-1))[e]` and
`value[e] = v1.unflatten(0,(E,-1))[e]` along the output-feature axis, and
the `down_weights` tensor equals, expert by expert, the reference
transposition of `down[e] = w2.unflatten(0,(E,-1))[e]`. -/
theorem claim_C2 (E F : Nat) (w1 v1 w2 : T2) (hE : 0 < E)
    (h1 : w1.d0 = E * F) (h2 : v1.d0 = E * F) (h3 : w2.d0 = E * F) :
    T3Eq (gateUpWeights E w1 v1)
      (refConcatGateUp (unflatten0 E w1) (unflatten0 E v1)) ∧
    T3Eq (downWeights E w2) (refTransposeDown (unflatten0 E w2)) := by
  have e1 : w1.d0 / E = F := by rw [h1, Nat.mul_div_cancel_left F hE]
  have e2 : v1.d0 / E = F := by rw [h2, Nat.mul_div_cancel_left F hE]
  have e3 : w2.d0 / E = F := by rw [h3, Nat.mul_div_cancel_left F hE]
  constructor
  · refine ⟨rfl, ?_, rfl, ?_⟩
    · simp only [gateUpWeights, refConcatGateUp, unflatten0, e1, e2]
      ring
    · intro e he i hi j hj
      simp only [gateUpWeights, refConcatGateUp, unflatten0, e1, e2]
  · refine ⟨rfl, rfl, ?_, ?_⟩
    · simp only [downWeights, refTransposeDown, unflatten0, e3]
    · intro e he i hi j hj
      simp only [downWeights, refTransposeDown, unflatten0, e3]

/-- C2 witness: the repack refinement instantiated at one expert with one
ffn row and one column. -/
theorem claim_C2_witness :
    T3Eq (gateUpWeights 1 ⟨1, 1, fun _ _ => 3⟩ ⟨1, 1, fun _ _ => 4⟩)
      (refConcatGateUp (unflatten0 1 ⟨1, 1, fun _ _ => 3⟩)
        (unflatten0 1 ⟨1, 1, fun _ _ => 4⟩)) ∧
    T3Eq (downWeights 1 ⟨1, 1, fun _ _ => 5⟩)
      (refTransposeDown (unflatten0 1 ⟨1, 1, fun _ _ => 5⟩)) :=
  claim_C2 1 1 ⟨1, 1, fun _ _ => 3⟩ ⟨1, 1, fun _ _ => 4⟩ ⟨1, 1, fun _ _ => 5⟩
    (by decide) (by decide) (by decide) (by decide)

/-- C9: on a module still holding the load representation, repacking
succeeds, the resulting module no longer holds `w1`/`v1`/`w2`, holds
`gate_up_weights`/`down_weights` instead, and invoking
`_update_model_fn` a second time on the repacked module fails (raises at
its first attribute read) without producing any new state — the repacked
weights are never silently corrupted. -/
theorem claim_C9 (m : DbrxExpertGLU) (w1 v1 w2 : T2)
    (h1 : m.w1 = some w1) (h2 : m.v1 = some v1) (h3 : m.w2 = some w2) :
    PatchedDbrxExpertGLU._update_model_fn m =
      some { m with
        w1 := none, v1 := none, w2 := none,
        gate_up_weights := some (gateUpWeights m.moe_num_experts w1 v1),
        down_weights := some (downWeights m.moe_num_experts w2) } ∧
    (∀ m', PatchedDbrxExpertGLU._update_model_fn m = some m' →
      PatchedDbrxExpertGLU._update_model_fn m' = none) := by
  constructor
  · simp [PatchedDbrxExpertGLU._update_model_fn, h1, h2, h3]
  · intro m' hm'
    simp [PatchedDbrxExpertGLU._update_model_fn, h1, h2, h3] at hm'
    rw [← hm']
    rfl

/-- C9 witness: the one-time transition instantiated at the concrete
module `glu0`. -/
theorem claim_C9_witness :
    PatchedDbrxExpertGLU._update_model_fn glu0 =
      some { glu0 with
        w1 := none, v1 := none, w2 := none,
        gate_up_weights := some (gateUpWeights glu0.moe_num_experts
          ⟨1, 1, fun _ _ => 3⟩ ⟨1, 1, fun _ _ => 4⟩),
        down_weights := some (downWeights glu0.moe_num_experts
          ⟨1, 1, fun _ _ => 5⟩) } ∧
    (∀ m', PatchedDbrxExpertGLU._update_model_fn glu0 = some m' →
      PatchedDbrxExpertGLU._update_model_fn m' = none) :=
  claim_C9 glu0 ⟨1, 1, fun _ _ => 3⟩ ⟨1, 1, fun _ _ => 4⟩ ⟨1, 1, fun _ _ => 5⟩
    rfl rfl rfl

/-- C6: both distribution-output hooks perform the sum all-reduce
unconditionally on every invocation, on any data: the attention hook
all-reduces exactly `outputs[0]` and returns the remaining elements of the
tuple unchanged, and the experts hook all-reduces the entire output
tensor.  Neither result depends on any condition over the batch data. -/
theorem claim_C6 {α : Type} (all_reduce : α → α) (x : α) (rest : List α)
    (t : α) :
    PatchedDbrxAttention._distribute_output_fn all_reduce (x :: rest)
      = some (all_reduce x :: rest) ∧
    PatchedDbrxExperts._distribute_output_fn all_reduce t = all_reduce t :=
  ⟨rfl, rfl⟩

/-- C10: `PatchedDbrxModel.forward` depends only on `input_ids`,
`position_ids` and `past_key_values` — two calls differing only in
`attention_mask`, `inputs_embeds`, `use_cache`, `output_attentions`,
`output_hidden_states`, `output_router_logits`, `return_dict` or
`cache_position` return equal results; likewise
`PatchedDbrxAttention.forward` ignores its `position_ids`,
`attention_mask`, `output_attentions`, `use_cache` and `cache_position`
arguments, and the second element of its result triple is always `None`. -/
theorem claim_C10 {α κ π ι μ γ π2 μ2 γ2 : Type} (wte : ι → α) (norm_f : α → α)
    (blocks : List (BlockArgs α κ π → α)) (input_ids : ι)
    (position_ids : Option π) (past_key_values : Nat → κ)
    (am1 am2 : Option μ) (emb1 emb2 : Option α)
    (uc1 uc2 oa1 oa2 ohs1 ohs2 orl1 orl2 rd1 rd2 : Option Bool)
    (cp1 cp2 : Option γ)
    (dist_initialized : Bool) (dist_world_size : Nat) (cfg : AttnConfig)
    (context : BatchContext) (fresh : Nat) (hidden_states : BufTensor)
    (past_key_value : BufTensor × BufTensor)
    (pid1 pid2 : Option π2) (amA1 amA2 : Option μ2)
    (oaA1 oaA2 ucA1 ucA2 : Bool) (cpA1 cpA2 : Option γ2) :
    PatchedDbrxModel.forward wte norm_f blocks input_ids am1 position_ids
        past_key_values emb1 uc1 oa1 ohs1 orl1 rd1 cp1
      = PatchedDbrxModel.forward wte norm_f blocks input_ids am2 position_ids
        past_key_values emb2 uc2 oa2 ohs2 orl2 rd2 cp2 ∧
    PatchedDbrxAttention.forward dist_initialized dist_world_size cfg context
        fresh hidden_states pid1 amA1 past_key_value oaA1 ucA1 cpA1
      = PatchedDbrxAttention.forward dist_initialized dist_world_size cfg
        context fresh hidden_states pid2 amA2 past_key_value oaA2 ucA2 cpA2 ∧
    (PatchedDbrxAttention.forward dist_initialized dist_world_size cfg context
        fresh hidden_states pid1 amA1 past_key_value oaA1 ucA1 cpA1).1.2.1
      = none :=
  ⟨rfl, rfl, rfl⟩

/-- C3: starting from a module whose `inv_freq` is absent (`None`), the
first forward call computes and stores the table whose entry `i`
(`i < dim / 2`, table length `dim / 2` for even `dim`) is
`1 / base ** (2 * i / dim)`; a second call — with arbitrary different
position ids — leaves the module state exactly as the first call left it
(no recomputation) and hands the very same cached table to the rotary
kernel; both calls return V unchanged while Q and K are exactly the
kernel's outputs for the cached table. -/
theorem claim_C3 {T P : Type} (fpow : Rat → Rat → Rat)
    (fused : T → T → P → List Rat → Rat → T × T)
    (base : Rat) (dim : Nat) (q1 k1 v1 q2 k2 v2 : T) (pos1 pos2 : P)
    (i : Nat) (hdim : 2 ∣ dim) (hi : i < dim / 2) :
    (rotaryEmbFn fpow fused ⟨base, dim, none⟩ q1 k1 v1 pos1).1.inv_freq
      = some (computeInvFreq fpow base dim) ∧
    (computeInvFreq fpow base dim).length = dim / 2 ∧
    (computeInvFreq fpow base dim).getD i 0
      = 1 / fpow base ((2 * i : Rat) / (dim : Rat)) ∧
    (rotaryEmbFn fpow fused
        (rotaryEmbFn fpow fused ⟨base, dim, none⟩ q1 k1 v1 pos1).1
        q2 k2 v2 pos2).1
      = (rotaryEmbFn fpow fused ⟨base, dim, none⟩ q1 k1 v1 pos1).1 ∧
    (rotaryEmbFn fpow fused ⟨base, dim, none⟩ q1 k1 v1 pos1).2.2.2 = v1 ∧
    (rotaryEmbFn fpow fused
        (rotaryEmbFn fpow fused ⟨base, dim, none⟩ q1 k1 v1 pos1).1
        q2 k2 v2 pos2).2.2.2 = v2 ∧
    ((rotaryEmbFn fpow fused ⟨base, dim, none⟩ q1 k1 v1 pos1).2.1,
      (rotaryEmbFn fpow fused ⟨base, dim, none⟩ q1 k1 v1 pos1).2.2.1)
      = fused q1 k1 pos1 (computeInvFreq fpow base dim) 1 ∧
    ((rotaryEmbFn fpow fused
        (rotaryEmbFn fpow fused ⟨base, dim, none⟩ q1 k1 v1 pos1).1
        q2 k2 v2 pos2).2.1,
      (rotaryEmbFn fpow fused
        (rotaryEmbFn fpow fused ⟨base, dim, none⟩ q1 k1 v1 pos1).1
        q2 k2 v2 pos2).2.2.1)
      = fused q2 k2 pos2 (computeInvFreq fpow base dim) 1 := by
  obtain ⟨m, rfl⟩ := hdim
  have hlen : (computeInvFreq fpow base (2 * m)).length = 2 * m / 2 := by
    simp only [computeInvFreq, List.length_map, List.length_range]
    omega
  have hi' : i < (2 * m + 1) / 2 := by omega
  have hget : (computeInvFreq fpow base (2 * m)).getD i 0
      = 1 / fpow base ((2 * i : Rat) / ((2 * m : Nat) : Rat)) := by
    simp only [computeInvFreq]
    rw [List.getD_eq_getElem?_getD, List.getElem?_map, List.getElem?_range hi']
    push_cast
    rfl
  exact ⟨rfl, hlen, hget, rfl, rfl, rfl, rfl, rfl⟩

/-- C3 witness: the caching behaviour instantiated with `base = 2`,
`dim = 2`, concrete Q/K/V values, distinct position ids `7` and `8`, an
identity stand-in for the rotary kernel and a constant stand-in for the
float power. -/
theorem claim_C3_witness :
    (2 ∣ 2) ∧ (0 : Nat) < 2 / 2 ∧
    ((rotaryEmbFn (fun _ _ => (1 : Rat))
        (fun (a b : Nat) (_ : Nat) (_ : List Rat) (_ : Rat) => (a, b))
        ⟨2, 2, none⟩ 1 2 3 7).1.inv_freq
      = some (computeInvFreq (fun _ _ => (1 : Rat)) 2 2) ∧
    (computeInvFreq (fun _ _ => (1 : Rat)) 2 2).length = 2 / 2 ∧
    (computeInvFreq (fun _ _ => (1 : Rat)) 2 2).getD 0 0
      = 1 / (fun _ _ => (1 : Rat)) 2 ((2 * (0 : Nat) : Rat) / ((2 : Nat) : Rat)) ∧
    (rotaryEmbFn (fun _ _ => (1 : Rat))
        (fun (a b : Nat) (_ : Nat) (_ : List Rat) (_ : Rat) => (a, b))
        ((rotaryEmbFn (fun _ _ => (1 : Rat))
          (fun (a b : Nat) (_ : Nat) (_ : List Rat) (_ : Rat) => (a, b))
          ⟨2, 2, none⟩ 1 2 3 7).1) 4 5 6 8).1
      = (rotaryEmbFn (fun _ _ => (1 : Rat))
          (fun (a b : Nat) (_ : Nat) (_ : List Rat) (_ : Rat) => (a, b))
          ⟨2, 2, none⟩ 1 2 3 7).1 ∧
    (rotaryEmbFn (fun _ _ => (1 : Rat))
        (fun (a b : Nat) (_ : Nat) (_ : List Rat) (_ : Rat) => (a, b))
        ⟨2, 2, none⟩ 1 2 3 7).2.2.2 = 3 ∧
    (rotaryEmbFn (fun _ _ => (1 : Rat))
        (fun (a b : Nat) (_ : Nat) (_ : List Rat) (_ : Rat) => (a, b))
        ((rotaryEmbFn (fun _ _ => (1 : Rat))
          (fun (a b : Nat) (_ : Nat) (_ : List Rat) (_ : Rat) => (a, b))
          ⟨2, 2, none⟩ 1 2 3 7).1) 4 5 6 8).2.2.2 = 6 ∧
    ((rotaryEmbFn (fun _ _ => (1 : Rat))
        (fun (a b : Nat) (_ : Nat) (_ : List Rat) (_ : Rat) => (a, b))
        ⟨2, 2, none⟩ 1 2 3 7).2.1,
      (rotaryEmbFn (fun _ _ => (1 : Rat))
        (fun (a b : Nat) (_ : Nat) (_ : List Rat) (_ : Rat) => (a, b))
        ⟨2, 2, none⟩ 1 2 3 7).2.2.1)
      = (fun (a b : Nat) (_ : Nat) (_ : List Rat) (_ : Rat) => (a, b)) 1 2 7
          (computeInvFreq (fun _ _ => (1 : Rat)) 2 2) 1 ∧
    ((rotaryEmbFn (fun _ _ => (1 : Rat))
        (fun (a b : Nat) (_ : Nat) (_ : List Rat) (_ : Rat) => (a, b))
        ((rotaryEmbFn (fun _ _ => (1 : Rat))
          (fun (a b : Nat) (_ : Nat) (_ : List Rat) (_ : Rat) => (a, b))
          ⟨2, 2, none⟩ 1 2 3 7).1) 4 5 6 8).2.1,
      (rotaryEmbFn (fun _ _ => (1 : Rat))
        (fun (a b : Nat) (_ : Nat) (_ : List Rat) (_ : Rat) => (a, b))
        ((rotaryEmbFn (fun _ _ => (1 : Rat))
          (fun (a b : Nat) (_ : Nat) (_ : List Rat) (_ : Rat) => (a, b))
          ⟨2, 2, none⟩ 1 2 3 7).1) 4 5 6 8).2.2.1)
      = (fun (a b : Nat) (_ : Nat) (_ : List Rat) (_ : Rat) => (a, b)) 4 5 8
          (computeInvFreq (fun _ _ => (1 : Rat)) 2 2) 1) :=
  ⟨by decide, by decide,
    claim_C3 (fun _ _ => (1 : Rat))
      (fun (a b : Nat) (_ : Nat) (_ : List Rat) (_ : Rat) => (a, b))
      2 2 1 2 3 4 5 6 7 8 0 (by decide) (by decide)⟩

/-- C4: one attention forward pass performs, in this fixed order,
`__qkv_proj`, `__rotary_emb_fn`, `fill_kv_cache` (appending the rotated
K/V — buffers `fresh + 1`, `fresh + 2` — into the two cache handles at the
batch context's block-offset/sequence-offset arguments) and only then
`paged_attention_fwd`, whose `out` argument is the very query buffer
(`fresh` in both positions); the result fed to `out_proj` is reshaped to
`(*, local hidden size)` = leading dims ++ `[(num_heads / world_size) *
head_dim]`; the output is projected through `out_proj` (full
`hidden_size` features); and the returned `past_key_value` pair is the
object that was passed in. -/
theorem claim_C4 (cfg : AttnConfig) (context : BatchContext)
    (hidden_states : BufTensor) (past_key_value : BufTensor × BufTensor)
    (world_size fresh : Nat)
    (hn : 0 < listProd hidden_states.shape.dropLast) :
    attnForwardImpl cfg context hidden_states past_key_value world_size fresh
      = ((⟨fresh + 3, hidden_states.shape.dropLast ++ [cfg.hidden_size]⟩,
          none, past_key_value),
        [.qkvProj hidden_states.id fresh,
         .rotaryEv fresh (fresh + 1) context.position_ids_1d,
         .fillKVCache (fresh + 1) (fresh + 2) past_key_value.1.id
           past_key_value.2.id context.q_start_loc context.q_seq_length
           context.kv_seq_length context.max_q_seq_length
           context.block_offsets,
         .pagedAttnFwd fresh past_key_value.1.id past_key_value.2.id fresh
           context.block_offsets context.q_start_loc context.q_seq_length
           context.kv_seq_length context.max_q_seq_length,
         .outProjEv fresh (hidden_states.shape.dropLast
           ++ [cfg.num_heads / world_size * cfg.head_dim]) (fresh + 3)]) := by
  have h : listProd [listProd hidden_states.shape.dropLast,
        cfg.num_heads / world_size, cfg.head_dim]
        / listProd hidden_states.shape.dropLast
      = cfg.num_heads / world_size * cfg.head_dim := by
    simp only [listProd, List.foldr_cons, List.foldr_nil, Nat.mul_one]
    exact Nat.mul_div_cancel_left _ hn
  simp only [attnForwardImpl, h]
  simp

/-- C4 witness: the trace equation instantiated at a concrete 7-token
hidden-state buffer, concrete cache handles and `world_size = 2`. -/
theorem claim_C4_witness :
    0 < listProd ((⟨0, [7, 32]⟩ : BufTensor)).shape.dropLast ∧
    attnForwardImpl ⟨4, 2, 8, 32, none⟩ ⟨1, 2, 3, 4, 5, 6⟩ ⟨0, [7, 32]⟩
        (⟨20, [9]⟩, ⟨21, [9]⟩) 2 100
      = ((⟨103, [7, 32]⟩, none, (⟨20, [9]⟩, ⟨21, [9]⟩)),
        [.qkvProj 0 100,
         .rotaryEv 100 101 6,
         .fillKVCache 101 102 20 21 1 2 3 5 4,
         .pagedAttnFwd 100 20 21 100 4 1 2 3 5,
         .outProjEv 100 [7, 16] 103]) :=
  ⟨by decide,
    claim_C4 ⟨4, 2, 8, 32, none⟩ ⟨1, 2, 3, 4, 5, 6⟩ ⟨0, [7, 32]⟩
      (⟨20, [9]⟩, ⟨21, [9]⟩) 2 100 (by decide)⟩

/-- C7: in `__qkv_proj`, when `clip_qkv = some c` every entry read by the
Q/K/V split is the clamped projection value `clampVal c (Wqkv ...)` (and
the raw projection value when `clip_qkv = None`); the split sections start
at feature offsets `0`, `(num_heads / world_size) * head_dim` and
`(num_heads / world_size + num_key_value_heads / world_size) * head_dim`,
i.e. the widths are `(num_heads / world_size) * head_dim`,
`(num_key_value_heads / world_size) * head_dim`,
`(num_key_value_heads / world_size) * head_dim` with the original
unsharded `head_dim`; and under divisible sharding the local
query-to-KV head-count ratio equals the global one. -/
theorem claim_C7 (cfg : AttnConfig) (world_size : Nat)
    (Wqkv : (Nat → Nat → Rat) → Nat → Nat → Rat)
    (hidden_states : Nat → Nat → Rat) (c : Rat) (t a b : Nat) :
    (cfg.clip_qkv = some c →
      (__qkv_proj cfg world_size Wqkv hidden_states).1 t a b
        = clampVal c (Wqkv hidden_states t (a * cfg.head_dim + b)) ∧
      (__qkv_proj cfg world_size Wqkv hidden_states).2.1 t a b
        = clampVal c (Wqkv hidden_states t
            (cfg.num_heads / world_size * cfg.head_dim
              + (a * cfg.head_dim + b))) ∧
      (__qkv_proj cfg world_size Wqkv hidden_states).2.2 t a b
        = clampVal c (Wqkv hidden_states t
            (cfg.num_heads / world_size * cfg.head_dim
              + cfg.num_key_value_heads / world_size * cfg.head_dim
              + (a * cfg.head_dim + b)))) ∧
    (cfg.clip_qkv = none →
      (__qkv_proj cfg world_size Wqkv hidden_states).1 t a b
        = Wqkv hidden_states t (a * cfg.head_dim + b) ∧
      (__qkv_proj cfg world_size Wqkv hidden_states).2.1 t a b
        = Wqkv hidden_states t
            (cfg.num_heads / world_size * cfg.head_dim
              + (a * cfg.head_dim + b)) ∧
      (__qkv_proj cfg world_size Wqkv hidden_states).2.2 t a b
        = Wqkv hidden_states t
            (cfg.num_heads / world_size * cfg.head_dim
              + cfg.num_key_value_heads / world_size * cfg.head_dim
              + (a * cfg.head_dim + b))) ∧
    (world_size ∣ cfg.num_heads → world_size ∣ cfg.num_key_value_heads →
      cfg.num_heads / world_size * cfg.num_key_value_heads
        = cfg.num_key_value_heads / world_size * cfg.num_heads) := by
  refine ⟨?_, ?_, ?_⟩
  · intro hc
    simp [__qkv_proj, clampOpt, hc]
  · intro hc
    simp [__qkv_proj, clampOpt, hc]
  · intro h1 h2
    obtain ⟨x, hx⟩ := h1
    obtain ⟨y, hy⟩ := h2
    rcases Nat.eq_zero_or_pos world_size with h0 | h0
    · subst h0
      simp at hx hy
      simp [hx, hy]
    · rw [hx, hy, Nat.mul_div_cancel_left x h0, Nat.mul_div_cancel_left y h0]
      ring

/-- C7 witness: the clamp-and-split characterization instantiated with a
pass-through projection, `clip_qkv = 1`, `world_size = 2` and concrete
indices. -/
theorem claim_C7_witness :
    ((⟨4, 2, 8, 32, some 1⟩ : AttnConfig).clip_qkv = some 1 →
      (__qkv_proj ⟨4, 2, 8, 32, some 1⟩ 2 (fun h => h) (fun _ _ => 5)).1 0 0 0
        = clampVal 1 ((fun h => h) (fun _ _ => (5 : Rat)) 0 (0 * 8 + 0)) ∧
      (__qkv_proj ⟨4, 2, 8, 32, some 1⟩ 2 (fun h => h) (fun _ _ => 5)).2.1 0 0 0
        = clampVal 1 ((fun h => h) (fun _ _ => (5 : Rat)) 0
            (4 / 2 * 8 + (0 * 8 + 0))) ∧
      (__qkv_proj ⟨4, 2, 8, 32, some 1⟩ 2 (fun h => h) (fun _ _ => 5)).2.2 0 0 0
        = clampVal 1 ((fun h => h) (fun _ _ => (5 : Rat)) 0
            (4 / 2 * 8 + 2 / 2 * 8 + (0 * 8 + 0)))) ∧
    ((⟨4, 2, 8, 32, some 1⟩ : AttnConfig).clip_qkv = none →
      (__qkv_proj ⟨4, 2, 8, 32, some 1⟩ 2 (fun h => h) (fun _ _ => 5)).1 0 0 0
        = (fun h => h) (fun _ _ => (5 : Rat)) 0 (0 * 8 + 0) ∧
      (__qkv_proj ⟨4, 2, 8, 32, some 1⟩ 2 (fun h => h) (fun _ _ => 5)).2.1 0 0 0
        = (fun h => h) (fun _ _ => (5 : Rat)) 0 (4 / 2 * 8 + (0 * 8 + 0)) ∧
      (__qkv_proj ⟨4, 2, 8, 32, some 1⟩ 2 (fun h => h) (fun _ _ => 5)).2.2 0 0 0
        = (fun h => h) (fun _ _ => (5 : Rat)) 0
            (4 / 2 * 8 + 2 / 2 * 8 + (0 * 8 + 0))) ∧
    ((2 : Nat) ∣ 4 → (2 : Nat) ∣ 2 → 4 / 2 * 2 = 2 / 2 * 4) :=
  claim_C7 ⟨4, 2, 8, 32, some 1⟩ 2 (fun h => h) (fun _ _ => 5) 1 0 0 0

/-- C8: `PatchedDbrxExperts.forward` flattens `(batch, seq)` into one token
axis (the kernel receives a `(batch * seq, hidden)` matrix), invokes
`fused_moe` with the repacked `gate_up_weights`/`down_weights`,
`topk = top_weights.size(1)` and `renormalize = False`, and unflattens the
kernel output back, so under the kernel's shape contract the output has
exactly the input's `(batch, seq, hidden)` dimensions. -/
theorem claim_C8 (fused_moe : T2 → T3 → T3 → T2 → T2 → Nat → Bool → T2)
    (mlp : DbrxExpertsMLP) (x : T3) (weights top_weights top_experts : T2)
    (hfm : ∀ t gu dw tw te k rn, (fused_moe t gu dw tw te k rn).d0 = t.d0
      ∧ (fused_moe t gu dw tw te k rn).d1 = t.d1)
    (hq : 0 < x.d1) :
    (PatchedDbrxExperts.forward fused_moe mlp x weights top_weights
        top_experts).1.d0 = x.d0 ∧
    (PatchedDbrxExperts.forward fused_moe mlp x weights top_weights
        top_experts).1.d1 = x.d1 ∧
    (PatchedDbrxExperts.forward fused_moe mlp x weights top_weights
        top_experts).1.d2 = x.d2 ∧
    (PatchedDbrxExperts.forward fused_moe mlp x weights top_weights
        top_experts).2
      = ⟨x.d0 * x.d1, x.d2, mlp.gate_up_weights, mlp.down_weights,
          top_weights.d1, false⟩ := by
  have h := hfm ⟨x.d0 * x.d1, x.d2, fun i j => x.data (i / x.d1) (i % x.d1) j⟩
    mlp.gate_up_weights mlp.down_weights top_weights top_experts
    top_weights.d1 false
  refine ⟨?_, rfl, ?_, rfl⟩
  · show (fused_moe ⟨x.d0 * x.d1, x.d2, fun i j =>
        x.data (i / x.d1) (i % x.d1) j⟩ mlp.gate_up_weights mlp.down_weights
        top_weights top_experts top_weights.d1 false).d0 / x.d1 = x.d0
    rw [h.1]
    exact Nat.mul_div_cancel x.d0 hq
  · exact h.2

/-- C8 witness: the shape restoration instantiated with an
identity-on-tokens kernel stand-in and a `(1, 2, 3)` input. -/
theorem claim_C8_witness :
    (∀ t gu dw tw te k rn,
      ((fun (tk : T2) (_ : T3) (_ : T3) (_ : T2) (_ : T2) (_ : Nat)
        (_ : Bool) => tk) t gu dw tw te k rn).d0 = t.d0
      ∧ ((fun (tk : T2) (_ : T3) (_ : T3) (_ : T2) (_ : T2) (_ : Nat)
        (_ : Bool) => tk) t gu dw tw te k rn).d1 = t.d1) ∧
    (0 : Nat) < 2 ∧
    (PatchedDbrxExperts.forward
        (fun (tk : T2) (_ : T3) (_ : T3) (_ : T2) (_ : T2) (_ : Nat)
          (_ : Bool) => tk)
        ⟨⟨1, 1, 1, fun _ _ _ => 0⟩, ⟨1, 1, 1, fun _ _ _ => 0⟩⟩
        ⟨1, 2, 3, fun _ _ _ => 0⟩ ⟨2, 2, fun _ _ => 0⟩ ⟨2, 2, fun _ _ => 0⟩
        ⟨2, 2, fun _ _ => 0⟩).1.d0 = 1 ∧
    (PatchedDbrxExperts.forward
        (fun (tk : T2) (_ : T3) (_ : T3) (_ : T2) (_ : T2) (_ : Nat)
          (_ : Bool) => tk)
        ⟨⟨1, 1, 1, fun _ _ _ => 0⟩, ⟨1, 1, 1, fun _ _ _ => 0⟩⟩
        ⟨1, 2, 3, fun _ _ _ => 0⟩ ⟨2, 2, fun _ _ => 0⟩ ⟨2, 2, fun _ _ => 0⟩
        ⟨2, 2, fun _ _ => 0⟩).1.d1 = 2 ∧
    (PatchedDbrxExperts.forward
        (fun (tk : T2) (_ : T3) (_ : T3) (_ : T2) (_ : T2) (_ : Nat)
          (_ : Bool) => tk)
        ⟨⟨1, 1, 1, fun _ _ _ => 0⟩, ⟨1, 1, 1, fun _ _ _ => 0⟩⟩
        ⟨1, 2, 3, fun _ _ _ => 0⟩ ⟨2, 2, fun _ _ => 0⟩ ⟨2, 2, fun _ _ => 0⟩
        ⟨2, 2, fun _ _ => 0⟩).1.d2 = 3 ∧
    (PatchedDbrxExperts.forward
        (fun (tk : T2) (_ : T3) (_ : T3) (_ : T2) (_ : T2) (_ : Nat)
          (_ : Bool) => tk)
        ⟨⟨1, 1, 1, fun _ _ _ => 0⟩, ⟨1, 1, 1, fun _ _ _ => 0⟩⟩
        ⟨1, 2, 3, fun _ _ _ => 0⟩ ⟨2, 2, fun _ _ => 0⟩ ⟨2, 2, fun _ _ => 0⟩
        ⟨2, 2, fun _ _ => 0⟩).2
      = ⟨1 * 2, 3, ⟨1, 1, 1, fun _ _ _ => 0⟩, ⟨1, 1, 1, fun _ _ _ => 0⟩,
          2, false⟩ :=
  ⟨fun _ _ _ _ _ _ _ => ⟨rfl, rfl⟩, by decide,
    claim_C8
      (fun (tk : T2) (_ : T3) (_ : T3) (_ : T2) (_ : T2) (_ : Nat)
        (_ : Bool) => tk)
      ⟨⟨1, 1, 1, fun _ _ _ => 0⟩, ⟨1, 1, 1, fun _ _ _ => 0⟩⟩
      ⟨1, 2, 3, fun _ _ _ => 0⟩ ⟨2, 2, fun _ _ => 0⟩ ⟨2, 2, fun _ _ => 0⟩
      ⟨2, 2, fun _ _ => 0⟩
      (fun _ _ _ _ _ _ _ => ⟨rfl, rfl⟩) (by decide)⟩

theorem runBlocks_trace {α κ π : Type} (blocks : List (BlockArgs α κ π → α))
    (idx : Nat) (hidden : α) (am : Option Unit) (pos : Option π)
    (pkv : Nat → κ) (oa orl uc : Bool) (cp : Option Unit) :
    ((runBlocks blocks idx hidden am pos pkv oa orl uc cp).2.map
        (fun c => c.idx)) = List.range' idx blocks.length ∧
    (∀ c ∈ (runBlocks blocks idx hidden am pos pkv oa orl uc cp).2,
      c.args.attention_mask = am ∧ c.args.cache_position = cp ∧
      c.args.position_ids = pos ∧ c.args.past_key_value = pkv c.idx ∧
      c.args.output_attentions = oa ∧ c.args.output_router_logits = orl ∧
      c.args.use_cache = uc) ∧
    (((runBlocks blocks idx hidden am pos pkv oa orl uc cp).2.map
        (fun c => c.args.hidden_states)).headD hidden = hidden) ∧
    (∀ i c c',
      (runBlocks blocks idx hidden am pos pkv oa orl uc cp).2.get? i = some c →
      (runBlocks blocks idx hidden am pos pkv oa orl uc cp).2.get? (i + 1)
        = some c' →
      c'.args.hidden_states = c.output) ∧
    (runBlocks blocks idx hidden am pos pkv oa orl uc cp).1
      = ((runBlocks blocks idx hidden am pos pkv oa orl uc cp).2.map
          (fun c => c.output)).getLastD hidden := by
  induction blocks generalizing idx hidden with
  | nil =>
    refine ⟨rfl, ?_, rfl, ?_, rfl⟩
    · intro c hc
      simp [runBlocks] at hc
    · intro i c c' hc hc'
      simp [runBlocks] at hc
  | cons b rest ih =>
    obtain ⟨ih1, ih2, ih3, ih4, ih5⟩ :=
      ih (idx + 1) (b ⟨hidden, am, pos, pkv idx, oa, orl, uc, cp⟩)
    refine ⟨?_, ?_, rfl, ?_, ?_⟩
    · simp only [runBlocks, List.map_cons, ih1, List.length_cons,
        List.range'_succ]
    · intro c hc
      simp only [runBlocks, List.mem_cons] at hc
      rcases hc with hc | hc
      · subst hc
        exact ⟨rfl, rfl, rfl, rfl, rfl, rfl, rfl⟩
      · exact ih2 c hc
    · intro i c c' hc hc'
      match i with
      | 0 =>
        simp only [runBlocks, List.get?] at hc hc'
        cases hc
        match hrest :
            (runBlocks rest (idx + 1)
              (b ⟨hidden, am, pos, pkv idx, oa, orl, uc, cp⟩) am pos pkv oa
              orl uc cp).2, hc' with
        | c2 :: tl, hc' =>
          rw [hrest] at ih3
          simp only [List.map_cons, List.headD_cons] at ih3
          simp only [hrest, List.get?] at hc'
          cases hc'
          exact ih3
      | Nat.succ n =>
        simp only [runBlocks, List.get?] at hc hc'
        exact ih4 n c c' hc hc'
    · simp only [runBlocks, List.map_cons, List.getLastD_cons, ih5]

/-- C5: the model forward driver performs the embedding lookup, invokes
every transformer block in index order — each call carrying
`attention_mask = None` and `cache_position = None` (no mask or
cache-position object is ever constructed in the pass), the shared
`position_ids`, this block's slice `past_key_values[idx]`,
`output_attentions = False`, `output_router_logits = False` and
`use_cache = True` — threads each block's output into the next block's
input starting from the embeddings, applies `norm_f` to the last block's
hidden states, and returns those normalized hidden states together with
the very `past_key_values` object it was given (and `None` for the
`hidden_states`/`attentions` slots). -/
theorem claim_C5 {α κ π ι : Type} (wte : ι → α) (norm_f : α → α)
    (blocks : List (BlockArgs α κ π → α)) (input_ids : ι)
    (position_ids : Option π) (past_key_values : Nat → κ) :
    ((PatchedDbrxModel._continuous_batching_forward wte norm_f blocks
        input_ids position_ids past_key_values).2.map (fun c => c.idx))
      = List.range blocks.length ∧
    (∀ c ∈ (PatchedDbrxModel._continuous_batching_forward wte norm_f blocks
        input_ids position_ids past_key_values).2,
      c.args.attention_mask = none ∧ c.args.cache_position = none ∧
      c.args.position_ids = position_ids ∧
      c.args.past_key_value = past_key_values c.idx ∧
      c.args.output_attentions = false ∧
      c.args.output_router_logits = false ∧ c.args.use_cache = true) ∧
    (((PatchedDbrxModel._continuous_batching_forward wte norm_f blocks
        input_ids position_ids past_key_values).2.map
        (fun c => c.args.hidden_states)).headD (wte input_ids)
      = wte input_ids) ∧
    (∀ i c c',
      (PatchedDbrxModel._continuous_batching_forward wte norm_f blocks
        input_ids position_ids past_key_values).2.get? i = some c →
      (PatchedDbrxModel._continuous_batching_forward wte norm_f blocks
        input_ids position_ids past_key_values).2.get? (i + 1) = some c' →
      c'.args.hidden_states = c.output) ∧
    (PatchedDbrxModel._continuous_batching_forward wte norm_f blocks
        input_ids position_ids past_key_values).1.last_hidden_state
      = norm_f (((PatchedDbrxModel._continuous_batching_forward wte norm_f
          blocks input_ids position_ids past_key_values).2.map
          (fun c => c.output)).getLastD (wte input_ids)) ∧
    (PatchedDbrxModel._continuous_batching_forward wte norm_f blocks
        input_ids position_ids past_key_values).1.past_key_values
      = past_key_values ∧
    (PatchedDbrxModel._continuous_batching_forward wte norm_f blocks
        input_ids position_ids past_key_values).1.hidden_states = none ∧
    (PatchedDbrxModel._continuous_batching_forward wte norm_f blocks
        input_ids position_ids past_key_values).1.attentions = none := by
  obtain ⟨h1, h2, h3, h4, h5⟩ := runBlocks_trace blocks 0 (wte input_ids)
    none position_ids past_key_values false false true none
  refine ⟨?_, h2, h3, h4, ?_, rfl, rfl, rfl⟩
  · rw [List.range_eq_range']
    exact h1
  · show norm_f (runBlocks blocks 0 (wte input_ids) none position_ids
        past_key_values false false true none).1 = _
    rw [h5]
    rfl

/-- C5 witness: the driver contract instantiated at two concrete blocks
over natural-number hidden states. -/
theorem claim_C5_witness :
    ((PatchedDbrxModel._continuous_batching_forward (fun n : Nat => n + 1)
        (fun n : Nat => n * 10)
        [fun a : BlockArgs Nat Nat Nat => a.hidden_states + 1,
          fun a : BlockArgs Nat Nat Nat => a.hidden_states + 2]
        0 (some 5) (fun i => i)).2.map (fun c => c.idx))
      = List.range 2 ∧
    (∀ c ∈ (PatchedDbrxModel._continuous_batching_forward (fun n : Nat => n + 1)
        (fun n : Nat => n * 10)
        [fun a : BlockArgs Nat Nat Nat => a.hidden_states + 1,
          fun a : BlockArgs Nat Nat Nat => a.hidden_states + 2]
        0 (some 5) (fun i => i)).2,
      c.args.attention_mask = none ∧ c.args.cache_position = none ∧
      c.args.position_ids = some 5 ∧ c.args.past_key_value = c.idx ∧
      c.args.output_attentions = false ∧
      c.args.output_router_logits = false ∧ c.args.use_cache = true) ∧
    (((PatchedDbrxModel._continuous_batching_forward (fun n : Nat => n + 1)
        (fun n : Nat => n * 10)
        [fun a : BlockArgs Nat Nat Nat => a.hidden_states + 1,
          fun a : BlockArgs Nat Nat Nat => a.hidden_states + 2]
        0 (some 5) (fun i => i)).2.map
        (fun c => c.args.hidden_states)).headD 1 = 1) ∧
    (∀ i c c',
      (PatchedDbrxModel._continuous_batching_forward (fun n : Nat => n + 1)
        (fun n : Nat => n * 10)
        [fun a : BlockArgs Nat Nat Nat => a.hidden_states + 1,
          fun a : BlockArgs Nat Nat Nat => a.hidden_states + 2]
        0 (some 5) (fun i => i)).2.get? i = some c →
      (PatchedDbrxModel._continuous_batching_forward (fun n : Nat => n + 1)
        (fun n : Nat => n * 10)
        [fun a : BlockArgs Nat Nat Nat => a.hidden_states + 1,
          fun a : BlockArgs Nat Nat Nat => a.hidden_states + 2]
        0 (some 5) (fun i => i)).2.get? (i + 1) = some c' →
      c'.args.hidden_states = c.output) ∧
    (PatchedDbrxModel._continuous_batching_forward (fun n : Nat => n + 1)
        (fun n : Nat => n * 10)
        [fun a : BlockArgs Nat Nat Nat => a.hidden_states + 1,
          fun a : BlockArgs Nat Nat Nat => a.hidden_states + 2]
        0 (some 5) (fun i => i)).1.last_hidden_state
      = (fun n : Nat => n * 10)
          (((PatchedDbrxModel._continuous_batching_forward
            (fun n : Nat => n + 1) (fun n : Nat => n * 10)
            [fun a : BlockArgs Nat Nat Nat => a.hidden_states + 1,
              fun a : BlockArgs Nat Nat Nat => a.hidden_states + 2]
            0 (some 5) (fun i => i)).2.map (fun c => c.output)).getLastD 1) ∧
    (PatchedDbrxModel._continuous_batching_forward (fun n : Nat => n + 1)
        (fun n : Nat => n * 10)
        [fun a : BlockArgs Nat Nat Nat => a.hidden_states + 1,
          fun a : BlockArgs Nat Nat Nat => a.hidden_states + 2]
        0 (some 5) (fun i => i)).1.past_key_values = (fun i => i) ∧
    (PatchedDbrxModel._continuous_batching_forward (fun n : Nat => n + 1)
        (fun n : Nat => n * 10)
        [fun a : BlockArgs Nat Nat Nat => a.hidden_states + 1,
          fun a : BlockArgs Nat Nat Nat => a.hidden_states + 2]
        0 (some 5) (fun i => i)).1.hidden_states = none ∧
    (PatchedDbrxModel._continuous_batching_forward (fun n : Nat => n + 1)
        (fun n : Nat => n * 10)
        [fun a : BlockArgs Nat Nat Nat => a.hidden_states + 1,
          fun a : BlockArgs Nat Nat Nat => a.hidden_states + 2]
        0 (some 5) (fun i => i)).1.attentions = none :=
  claim_C5 (fun n : Nat => n + 1) (fun n : Nat => n * 10)
    [fun a : BlockArgs Nat Nat Nat => a.hidden_states + 1,
      fun a : BlockArgs Nat Nat Nat => a.hidden_states + 2]
    0 (some 5) (fun i => i)
